import Mathlib

/-!
Shallow embedding of the GotYourBack incremental backup tool
(src/backup_manager.py, src/database_manager.py, src/file_scanner.py,
src/config.py, src/main.py) and verification of the frozen claims.

Modelling conventions:
- File content is a list of byte values (`List Nat`); the configured digest
  function is an explicit parameter `hashFn : List Nat → Nat` standing for the
  streaming digest of file_scanner.calculate_file_hash (the digest value of a
  file is a deterministic function of its full byte content; no claim depends
  on the internals of md5).
- The filesystem is a pair of association lists keyed by path strings:
  one for source files, one for the backup tree.
- mod_time (a Python float of seconds) is modelled as a Nat: every claim
  only ever compares mod_time values for equality.
- The SQLite table file_hashes is a list of rows; INSERT OR REPLACE on the
  file_path PRIMARY KEY is delete-conflicting-row-then-insert.
- Exceptions are modelled with Option results or explicit fault-injection
  flags (copy_ok, PyError); the except clauses of the Python code become the
  corresponding branch of the model.
- `copies`, `hashes`, `snapshots` are ghost counters recording how many
  shutil.copy2 copies, calculate_file_hash calls and backup_to_disk calls
  have been performed; they let theorems talk about "number of copy
  operations" etc. without changing any behaviour.
- multiprocessing.Pool.map over the worklist is modelled as a left fold;
  every worker constructs its own fresh DatabaseManager (main.process_file),
  so the only state shared between items is the filesystem and the durable
  snapshot, and the fold is a faithful linearisation for the properties
  proved here (counts of copies and snapshot calls).
-/

/-- A regular file: byte content plus filesystem modification time.
The on-disk size reported by os.path.getsize is `content.length`. -/
structure File where
  content : List Nat
  mod_time : Nat
deriving DecidableEq

/-- A directory tree as an association list from path strings to files. -/
structure FS where
  files : List (String × File)
deriving DecidableEq

/-- Path lookup (first matching entry). -/
def FS.lookup (fs : FS) (p : String) : Option File :=
  List.lookup p fs.files

/-- Writing a file at a path, replacing any existing entry (the effect of
shutil.copy2 onto an existing or fresh destination). -/
def FS.insert (fs : FS) (p : String) (f : File) : FS :=
  FS.mk ((p, f) :: fs.files.filter (fun q => !(q.1 == p)))

/-- One row of the file_hashes table created by
DatabaseManager.create_tables (database_manager.py lines 35-46):
columns file_path (PRIMARY KEY), hash_code, mod_time, file_size,
last_backup. -/
structure Row where
  file_path : String
  hash_code : Nat
  mod_time : Nat
  file_size : Nat
  last_backup : Nat
deriving DecidableEq

/-- The in-memory SQLite database of DatabaseManager: the file_hashes table. -/
structure DatabaseManager where
  file_hashes : List Row
deriving DecidableEq

/-- DatabaseManager.update_file_data (database_manager.py lines 48-55):
INSERT OR REPLACE INTO file_hashes VALUES (path, hash, mod_time, size,
datetime(now)).  On the PRIMARY KEY file_path this deletes any conflicting
row and inserts the new one; `now` models the datetime stamp. -/
def DatabaseManager.update_file_data (db : DatabaseManager) (p : String)
    (h mt sz now : Nat) : DatabaseManager :=
  DatabaseManager.mk
    (db.file_hashes.filter (fun r => !(r.file_path == p)) ++ [Row.mk p h mt sz now])

/-- The row selected by a WHERE file_path = p query (first match). -/
def DatabaseManager.get_row (db : DatabaseManager) (p : String) : Option Row :=
  db.file_hashes.find? (fun r => r.file_path == p)

/-- DatabaseManager.get_file_hash (database_manager.py lines 57-63):
SELECT hash_code FROM file_hashes WHERE file_path = p; None if no row. -/
def DatabaseManager.get_file_hash (db : DatabaseManager) (p : String) : Option Nat :=
  (db.get_row p).map Row.hash_code

/-- DatabaseManager.get_file_metadata (database_manager.py lines 65-71):
SELECT mod_time, file_size WHERE file_path = p; (None, None) if no row. -/
def DatabaseManager.get_file_metadata (db : DatabaseManager) (p : String) :
    Option Nat × Option Nat :=
  match db.get_row p with
  | some r => (some r.mod_time, some r.file_size)
  | none => (none, none)

/-- The PRIMARY KEY invariant of the file_hashes table: at most one row per
file_path. -/
def DatabaseManager.wellFormed (db : DatabaseManager) : Prop :=
  (db.file_hashes.map Row.file_path).Nodup

/-- DatabaseManager construction (database_manager.py lines 7-27): connect to
an in-memory database, create the table, and load the durable snapshot from
disk when one exists (load_from_disk), else start empty. -/
def DatabaseManager.init (durable : Option (List Row)) : DatabaseManager :=
  DatabaseManager.mk (durable.getD [])

/-- Global state threaded through the model: the source tree, the backup
tree, the current worker database, the durable snapshot file content (none
when the snapshot file does not exist), the error log, and the ghost
operation counters. -/
structure SysState where
  source : FS
  backup : FS
  db : DatabaseManager
  durable : Option (List Row)
  log : List String
  copies : Nat
  hashes : Nat
  snapshots : Nat
deriving DecidableEq

/-- config.BACKUP_DIR (config.py): BASE_DIR = /extra/GYB/ and
BACKUP_DIR = BASE_DIR + /BackUp/ (note the doubled slash). -/
def BACKUP_DIR : String := "/extra/GYB//BackUp/"

/-- config.HASH_ALGORITHM (config.py line 8): a bare string assignment. -/
def HASH_ALGORITHM : String := "md5"

/-- BackupManager._prepare_backup_paths (backup_manager.py lines 58-77):
backup_path = Path(config.BACKUP_DIR) / source_base_dir.name / relative_path. -/
def backupPath (source_name rel : String) : String :=
  BACKUP_DIR ++ source_name ++ "/" ++ rel

/-- file_scanner.calculate_file_hash with the already-resolved digest
function: streams the file content and returns its digest; raises
FileNotFoundError (modelled none) when the path does not exist. -/
def calculate_file_hash (hashFn : List Nat → Nat) (fs : FS) (p : String) : Option Nat :=
  (fs.lookup p).map (fun f => hashFn f.content)

/-- The algorithm names guaranteed to exist as hashlib attributes
(hashlib.algorithms_guaranteed): getattr(hashlib, name) succeeds exactly for
these at calculate_file_hash call time. -/
def hashlib_algorithms : List String :=
  ["md5", "sha1", "sha224", "sha256", "sha384", "sha512",
   "sha3_224", "sha3_256", "sha3_384", "sha3_512",
   "blake2b", "blake2s", "shake_128", "shake_256"]

/-- Outcome of one calculate_file_hash call when the algorithm is selected by
name: getattr(hashlib, algorithm) raises AttributeError for an unknown name
before the file is even opened; then open can raise FileNotFoundError. -/
inductive HashOutcome where
  | attributeError
  | fileNotFound
  | digest (d : Nat)
deriving DecidableEq

/-- file_scanner.calculate_file_hash (file_scanner.py lines 7-13) with
dynamic per-call name resolution: hash_func = getattr(hashlib, algorithm)()
runs first, then the file is opened and streamed.  `digestOf` gives the
digest function of each supported algorithm. -/
def calculate_file_hash_by_name (digestOf : String → List Nat → Nat)
    (fs : FS) (p alg : String) : HashOutcome :=
  if hashlib_algorithms.contains alg then
    match fs.lookup p with
    | none => HashOutcome.fileNotFound
    | some f => HashOutcome.digest (digestOf alg f.content)
  else HashOutcome.attributeError

/-- Configuration/startup handling of the algorithm name: config.py line 8 is
a bare constant assignment and no code in the repository inspects
HASH_ALGORITHM at import or startup time, so startup accepts every name
(never returns none).  Rejection could only be modelled by a none result. -/
def config_hash_algorithm_startup (name : String) : Option String :=
  some name

/-- BackupManager._log_error (backup_manager.py lines 134-137): append the
message to the error log (console colouring dropped). -/
def log_error (s : SysState) (message : String) : SysState :=
  { s with log := s.log ++ [message] }

/-- BackupManager._copy_file (backup_manager.py lines 125-132):
shutil.copy2(source, destination) preserves content and modification time;
ANY exception from the copy (modelled by copy_ok = false, or a vanished
source) is caught inside this method, logged, and swallowed — the method
returns normally in every case. -/
def copy_file (copy_ok : Bool) (s : SysState) (src dst : String) : SysState :=
  if copy_ok then
    match s.source.lookup src with
    | some f =>
        { s with backup := s.backup.insert dst f, copies := s.copies + 1 }
    | none =>
        log_error s ("Failed to copy " ++ src ++ " to " ++ dst ++ ": no such file")
  else
    log_error s ("Failed to copy " ++ src ++ " to " ++ dst ++ ": copy error")

/-- BackupManager._update_db (backup_manager.py lines 119-123): re-read
mod_time and size fresh from the filesystem (os.path.getmtime, getsize raise
if the source vanished, modelled none) and upsert the row. -/
def update_db (now : Nat) (s : SysState) (fp : String) (file_hash : Nat) :
    Option SysState :=
  (s.source.lookup fp).map (fun f =>
    { s with db := s.db.update_file_data fp file_hash f.mod_time f.content.length now })

/-- BackupManager._perform_backup (backup_manager.py lines 103-117):
_copy_file then _update_db, with a try/except around the pair that logs and
swallows anything _update_db raises.  Because _copy_file already swallows its
own exceptions, a copy failure never reaches this except clause. -/
def perform_backup (copy_ok : Bool) (now : Nat) (s : SysState)
    (fp bp : String) (file_hash : Nat) : SysState :=
  match update_db now (copy_file copy_ok s fp bp) fp file_hash with
  | some s2 => s2
  | none =>
      log_error (copy_file copy_ok s fp bp)
        ("Failed to backup " ++ fp ++ " to " ++ bp)

/-- BackupManager._should_backup_file (backup_manager.py lines 80-101): true
when the backup file is missing; otherwise compare the (already computed)
source hash against get_file_hash and back up exactly when they differ
(a missing row compares unequal, as the Python None does).  The stored
mod_time and file_size columns are never read. -/
def should_backup_file (s : SysState) (fp bp : String) (file_hash : Nat) : Bool :=
  if s.backup.lookup bp = none then true
  else if s.db.get_file_hash fp ≠ some file_hash then true
  else false

/-- BackupManager.backup_file (backup_manager.py lines 29-56), fault-free
control path: resolve paths, compute the content hash once (unconditionally,
before any change decision), then _perform_backup when _should_backup_file
says so.  A FileNotFoundError from calculate_file_hash is caught by the
except clause and logged with the path. -/
def backup_file (copy_ok : Bool) (now : Nat) (hashFn : List Nat → Nat)
    (s : SysState) (fp sn rel : String) : SysState :=
  match calculate_file_hash hashFn s.source fp with
  | none => log_error s ("Error: " ++ fp ++ " not found.")
  | some file_hash =>
      let s1 : SysState := { s with hashes := s.hashes + 1 }
      if should_backup_file s1 fp (backupPath sn rel) file_hash then
        perform_backup copy_ok now s1 fp (backupPath sn rel) file_hash
      else s1

/-- The exception classes distinguished by the except clauses of
BackupManager.backup_file (backup_manager.py lines 51-56). -/
inductive PyError where
  | notFound
  | permissionDenied
  | other (msg : String)
deriving DecidableEq

/-- The log message each except clause of backup_file produces: the
FileNotFoundError and PermissionError messages interpolate the offending
path; the generic Exception clause logs only str(e). -/
def handle_error (fp : String) : PyError → String
  | PyError.notFound => "Error: " ++ fp ++ " not found."
  | PyError.permissionDenied => "Error: Permission denied for " ++ fp ++ "."
  | PyError.other msg => "Unexpected error: " ++ msg

/-- BackupManager.backup_file with injected per-file exception: when `err`
models an exception raised anywhere inside the try block, the matching
except clause catches it, logs handle_error, and returns normally — no
exception ever propagates out of backup_file. -/
def backup_file_caught (err : Option PyError) (copy_ok : Bool) (now : Nat)
    (hashFn : List Nat → Nat) (s : SysState) (fp sn rel : String) : SysState :=
  match err with
  | some e => log_error s (handle_error fp e)
  | none => backup_file copy_ok now hashFn s fp sn rel

/-- One worklist entry of main.main: the file path, the name of its source
root directory, and the path of the file relative to that root. -/
structure WorkItem where
  file_path : String
  source_name : String
  rel : String
deriving DecidableEq

/-- main.process_file (main.py lines 19-32): the worker constructs its own
fresh DatabaseManager (loading the durable snapshot when the snapshot file
exists) and then runs backup_file.  The worker database is never written
back to disk. -/
def process_file (now : Nat) (hashFn : List Nat → Nat) (s : SysState)
    (w : WorkItem) : SysState :=
  backup_file true now hashFn { s with db := DatabaseManager.init s.durable }
    w.file_path w.source_name w.rel

/-- main.process_file with injected per-file exception (see
backup_file_caught). -/
def process_file_caught (errOf : WorkItem → Option PyError) (now : Nat)
    (hashFn : List Nat → Nat) (s : SysState) (w : WorkItem) : SysState :=
  backup_file_caught (errOf w) true now hashFn
    { s with db := DatabaseManager.init s.durable }
    w.file_path w.source_name w.rel

/-- main.main (main.py lines 34-61): after building the worklist, Pool.map
runs process_file over every item (modelled as a left fold) and then the
function returns — no further call of any kind is made on the metadata
store. -/
def main_run (now : Nat) (hashFn : List Nat → Nat) (s : SysState)
    (wl : List WorkItem) : SysState :=
  wl.foldl (process_file now hashFn) s

/-- main.main with injected per-file exceptions. -/
def main_run_caught (errOf : WorkItem → Option PyError) (now : Nat)
    (hashFn : List Nat → Nat) (s : SysState) (wl : List WorkItem) : SysState :=
  wl.foldl (process_file_caught errOf now hashFn) s

/-- DatabaseManager.backup_to_disk (database_manager.py lines 79-83):
replace the durable snapshot file with the full current in-memory record
set; the ghost counter records each invocation. -/
def backup_to_disk (s : SysState) : SysState :=
  { s with durable := some s.db.file_hashes, snapshots := s.snapshots + 1 }

/-- Strips the directory part: dropPre pre p = some rel when p = pre ++ rel
(the effect of backup_file.relative_to(backup_dir) on an entry that rglob
yielded from under backup_dir), none when p is not under pre (such an entry
is never visited by rglob). -/
def dropPre (pre p : String) : Option String :=
  if pre.toList.isPrefixOf p.toList then
    some (String.mk (p.toList.drop pre.toList.length))
  else none

/-- Survival condition of one backup entry under
BackupManager.remove_deleted_backups: entries outside this source root are
not visited (kept); a visited entry is kept exactly when the corresponding
source path source_base_dir / relative_path still exists. -/
def keeps (s : SysState) (d n : String) (k : String) : Bool :=
  match dropPre (BACKUP_DIR ++ n ++ "/") k with
  | none => true
  | some rel => (s.source.lookup (d ++ "/" ++ rel)).isSome

/-- BackupManager.remove_deleted_backups (backup_manager.py lines 139-151):
walk the backup subtree of this source root and _delete_file every entry
whose corresponding source path no longer exists.  The method never touches
the DatabaseManager. -/
def remove_deleted_backups (s : SysState) (d n : String) : SysState :=
  { s with backup := FS.mk (s.backup.files.filter (fun pf => keeps s d n pf.1)) }

/-! Concrete example states used to evaluate the model. -/

/-- A two-byte source file with modification time 10 (size is 2). -/
def exFile : File := File.mk [1, 2] 10

/-- Fresh system: one source file /s/a, empty backup tree, empty database,
no durable snapshot file. -/
def exSt0 : SysState :=
  SysState.mk (FS.mk [("/s/a", exFile)]) (FS.mk []) (DatabaseManager.mk [])
    none [] 0 0 0

/-- State whose stored metadata for /s/a matches the current source file
exactly (mod_time 10, size 2) while the stored hash 999 is stale; the backup
file exists (with old content). -/
def exStMeta : SysState :=
  SysState.mk (FS.mk [("/s/a", exFile)])
    (FS.mk [(backupPath "s" "a", File.mk [1] 10)])
    (DatabaseManager.mk [Row.mk "/s/a" 999 10 2 0])
    none [] 0 0 0

/-- State whose stored hash for /s/a equals the current content hash
(List.length of the content, 2) and whose backup file exists. -/
def exStHit : SysState :=
  SysState.mk (FS.mk [("/s/a", exFile)])
    (FS.mk [(backupPath "s" "a", exFile)])
    (DatabaseManager.mk [Row.mk "/s/a" 2 10 2 0])
    none [] 0 0 0

/-- State whose stored record for /s/a matches the source file completely
(hash 2, mod_time 10, size 2) but whose backup file is missing. -/
def exStMiss : SysState :=
  SysState.mk (FS.mk [("/s/a", exFile)]) (FS.mk [])
    (DatabaseManager.mk [Row.mk "/s/a" 2 10 2 0])
    none [] 0 0 0

/-- State for the deleted-backup sweep: the backup subtree of source root
/src (named src) holds a, whose source still exists, and b, whose source is
gone; a backup entry of another source root is also present.  The database
still holds rows for both paths. -/
def exStSweep : SysState :=
  SysState.mk (FS.mk [("/src/a", exFile)])
    (FS.mk [(backupPath "src" "a", exFile), (backupPath "src" "b", exFile),
            (backupPath "other" "c", exFile)])
    (DatabaseManager.mk [Row.mk "/src/a" 2 10 2 0, Row.mk "/src/b" 2 10 2 0])
    none [] 0 0 0

/-! Helper lemmas about the association-list operations. -/

/-- Lookup through a filter whose predicate depends only on the key. -/
theorem lookup_filter_key (q : String → Bool) (p : String) (l : List (String × File)) :
    List.lookup p (l.filter (fun pf => q pf.1)) = if q p then List.lookup p l else none := by
  induction l with
  | nil => cases hq : q p <;> simp [List.lookup, hq]
  | cons a t ih =>
    cases hqa : q a.1 with
    | true =>
      cases hpa : (p == a.1) with
      | true =>
        have hp : p = a.1 := beq_iff_eq.mp hpa
        simp [List.filter, List.lookup, hqa, hpa, hp]
      | false =>
        simp [List.filter, List.lookup, hqa, hpa, ih]
    | false =>
      cases hpa : (p == a.1) with
      | true =>
        have hp : p = a.1 := beq_iff_eq.mp hpa
        rw [hp] at ih ⊢
        simp [List.filter, List.lookup, hqa, ih]
      | false =>
        simp [List.filter, List.lookup, hqa, hpa, ih]

/-- Writing a file then reading it back at the same path. -/
theorem fs_lookup_insert_self (fs : FS) (p : String) (f : File) :
    (fs.insert p f).lookup p = some f := by
  simp [FS.insert, FS.lookup, List.lookup]

/-- No row keyed p survives the filter that removes the rows keyed p. -/
theorem row_filter_find_self (l : List Row) (p : String) :
    (l.filter (fun r => !(r.file_path == p))).find? (fun r => r.file_path == p) = none := by
  induction l with
  | nil => rfl
  | cons a t ih =>
    cases ha : (a.file_path == p) with
    | true => simp [List.filter, ha, ih]
    | false => simp [List.filter, List.find?, ha, ih]

/-- Removing the rows keyed p does not change the first row keyed q ≠ p. -/
theorem row_filter_find_ne (l : List Row) (p q : String) (hq : q ≠ p) :
    (l.filter (fun r => !(r.file_path == p))).find? (fun r => r.file_path == q)
      = l.find? (fun r => r.file_path == q) := by
  induction l with
  | nil => rfl
  | cons a t ih =>
    cases hap : (a.file_path == p) with
    | true =>
      have h1 : a.file_path = p := beq_iff_eq.mp hap
      have h2 : (a.file_path == q) = false := by
        rw [h1]
        exact beq_eq_false_iff_ne.mpr (fun hh => hq hh.symm)
      simp [List.filter, List.find?, hap, h2, ih]
    | false =>
      cases haq : (a.file_path == q) with
      | true => simp [List.filter, List.find?, hap, haq]
      | false => simp [List.filter, List.find?, hap, haq, ih]

/-- After an upsert the stored hash at the upserted path is the new hash. -/
theorem get_file_hash_update_self (db : DatabaseManager) (p : String) (h mt sz now : Nat) :
    (db.update_file_data p h mt sz now).get_file_hash p = some h := by
  unfold DatabaseManager.get_file_hash DatabaseManager.get_row DatabaseManager.update_file_data
  rw [List.find?_append, row_filter_find_self]
  simp [List.find?]

/-- After an upsert the rows of other paths are untouched. -/
theorem get_row_update_ne (db : DatabaseManager) (p q : String) (h mt sz now : Nat)
    (hq : q ≠ p) :
    (db.update_file_data p h mt sz now).get_row q = db.get_row q := by
  unfold DatabaseManager.get_row DatabaseManager.update_file_data
  rw [List.find?_append, row_filter_find_ne _ _ _ hq]
  have h2 : ((Row.mk p h mt sz now).file_path == q) = false :=
    beq_eq_false_iff_ne.mpr (fun hh => hq hh.symm)
  cases hf : db.file_hashes.find? (fun r => r.file_path == q) with
  | some r => rfl
  | none => simp [List.find?, h2]

/-- Upsert preserves the at-most-one-row-per-path invariant. -/
theorem wellFormed_update (db : DatabaseManager) (p : String) (h mt sz now : Nat)
    (hwf : db.wellFormed) : (db.update_file_data p h mt sz now).wellFormed := by
  unfold DatabaseManager.wellFormed DatabaseManager.update_file_data at *
  rw [List.map_append]
  apply List.Nodup.append
  · exact hwf.sublist ((List.filter_sublist _).map Row.file_path)
  · simp
  · intro x hx hx2
    simp at hx2
    subst hx2
    rcases List.mem_map.mp hx with ⟨r, hr, hrp⟩
    rcases List.mem_filter.mp hr with ⟨-, hcond⟩
    rw [hrp] at hcond
    simp at hcond

/-- A list of characters is a Boolean prefix of itself followed by anything. -/
theorem charList_isPrefixOf_append (l m : List Char) : l.isPrefixOf (l ++ m) = true := by
  induction l with
  | nil => simp [List.isPrefixOf]
  | cons a t ih => simp [List.isPrefixOf, ih]

/-- toList distributes over string append. -/
theorem string_toList_append (a b : String) : (a ++ b).toList = a.toList ++ b.toList := by
  cases a; cases b; rfl

/-- Stripping a leading directory from a path underneath it. -/
theorem dropPre_append (pre rel : String) : dropPre pre (pre ++ rel) = some rel := by
  unfold dropPre
  rw [string_toList_append, charList_isPrefixOf_append]
  simp [List.drop_left]

/-! Frame lemmas: which components each operation can touch. -/

/-- Logging touches only the log. -/
theorem log_error_preserves (s : SysState) (m : String) :
    (log_error s m).source = s.source ∧ (log_error s m).backup = s.backup ∧
    (log_error s m).db = s.db ∧ (log_error s m).durable = s.durable ∧
    (log_error s m).copies = s.copies ∧ (log_error s m).hashes = s.hashes ∧
    (log_error s m).snapshots = s.snapshots :=
  ⟨rfl, rfl, rfl, rfl, rfl, rfl, rfl⟩

/-- Copying touches only the backup tree, the copy counter and the log. -/
theorem copy_file_preserves (c : Bool) (s : SysState) (a b : String) :
    (copy_file c s a b).source = s.source ∧ (copy_file c s a b).db = s.db ∧
    (copy_file c s a b).durable = s.durable ∧ (copy_file c s a b).hashes = s.hashes ∧
    (copy_file c s a b).snapshots = s.snapshots := by
  unfold copy_file log_error
  split
  · split
    · exact ⟨rfl, rfl, rfl, rfl, rfl⟩
    · exact ⟨rfl, rfl, rfl, rfl, rfl⟩
  · exact ⟨rfl, rfl, rfl, rfl, rfl⟩

/-- A successful _update_db touches only the database. -/
theorem update_db_some_preserves (now : Nat) (s : SysState) (fp : String) (h : Nat)
    (s2 : SysState) (heq : update_db now s fp h = some s2) :
    s2.source = s.source ∧ s2.backup = s.backup ∧ s2.durable = s.durable ∧
    s2.copies = s.copies ∧ s2.hashes = s.hashes ∧ s2.snapshots = s.snapshots := by
  unfold update_db at heq
  cases hl : s.source.lookup fp with
  | none => rw [hl] at heq; simp at heq
  | some f =>
    rw [hl] at heq
    simp only [Option.map_some', Option.some.injEq] at heq
    rw [← heq]
    exact ⟨rfl, rfl, rfl, rfl, rfl, rfl⟩

/-- _perform_backup never touches the source tree, the durable snapshot,
the hash counter or the snapshot counter. -/
theorem perform_backup_preserves (c : Bool) (now : Nat) (s : SysState)
    (fp bp : String) (h : Nat) :
    (perform_backup c now s fp bp h).source = s.source ∧
    (perform_backup c now s fp bp h).durable = s.durable ∧
    (perform_backup c now s fp bp h).hashes = s.hashes ∧
    (perform_backup c now s fp bp h).snapshots = s.snapshots := by
  unfold perform_backup
  have hcp := copy_file_preserves c s fp bp
  cases hu : update_db now (copy_file c s fp bp) fp h with
  | some s2 =>
    have hp := update_db_some_preserves now (copy_file c s fp bp) fp h s2 hu
    exact ⟨hp.1.trans hcp.1, hp.2.2.1.trans hcp.2.2.1,
      hp.2.2.2.2.1.trans hcp.2.2.2.1, hp.2.2.2.2.2.trans hcp.2.2.2.2⟩
  | none =>
    exact ⟨hcp.1, hcp.2.2.1, hcp.2.2.2.1, hcp.2.2.2.2⟩

/-- backup_file never touches the source tree, the durable snapshot or the
snapshot counter. -/
theorem backup_file_preserves (c : Bool) (now : Nat) (hashFn : List Nat → Nat)
    (s : SysState) (fp sn rel : String) :
    (backup_file c now hashFn s fp sn rel).source = s.source ∧
    (backup_file c now hashFn s fp sn rel).durable = s.durable ∧
    (backup_file c now hashFn s fp sn rel).snapshots = s.snapshots := by
  unfold backup_file
  cases hc : calculate_file_hash hashFn s.source fp with
  | none => exact ⟨rfl, rfl, rfl⟩
  | some fh =>
    dsimp only
    split
    · have hp := perform_backup_preserves c now { s with hashes := s.hashes + 1 }
        fp (backupPath sn rel) fh
      exact ⟨hp.1, hp.2.1, hp.2.2.2⟩
    · exact ⟨rfl, rfl, rfl⟩

/-- process_file never touches the source tree, the durable snapshot or the
snapshot counter. -/
theorem process_file_preserves (now : Nat) (hashFn : List Nat → Nat)
    (s : SysState) (w : WorkItem) :
    (process_file now hashFn s w).source = s.source ∧
    (process_file now hashFn s w).durable = s.durable ∧
    (process_file now hashFn s w).snapshots = s.snapshots := by
  unfold process_file
  have h := backup_file_preserves true now hashFn
    { s with db := DatabaseManager.init s.durable } w.file_path w.source_name w.rel
  exact ⟨h.1, h.2.1, h.2.2⟩

/-- Evaluation of a successful copy. -/
theorem copy_file_true_some (s : SysState) (src dst : String) (f : File)
    (h : s.source.lookup src = some f) :
    copy_file true s src dst =
      { s with backup := s.backup.insert dst f, copies := s.copies + 1 } := by
  unfold copy_file
  rw [h]
  rfl

/-- Evaluation of a fault-free commit: copy then upsert. -/
theorem perform_backup_true_some (now : Nat) (s : SysState) (fp bp : String)
    (f : File) (h : s.source.lookup fp = some f) (fh : Nat) :
    perform_backup true now s fp bp fh =
      { s with backup := s.backup.insert bp f,
               copies := s.copies + 1,
               db := s.db.update_file_data fp fh f.mod_time f.content.length now } := by
  unfold perform_backup
  rw [copy_file_true_some s fp bp f h]
  unfold update_db
  have h2 : ({ s with backup := s.backup.insert bp f, copies := s.copies + 1 }
      : SysState).source.lookup fp = some f := h
  rw [h2]
  rfl

/-! The claims. -/

/-- C1: counterexample to the claim as stated.  In exStMeta the backup path
exists and the stored mod_time and file_size both match the source file
exactly (mod_time 10, size 2), so the claim requires the decision to be
false with no content hash computed; but the code computes the hash
unconditionally (the hash counter rises to 1) and the decision is true
because the stored hash 999 differs from the content hash 2. -/
theorem C1_metadata_match_still_hashes_cex :
    (exStMeta.backup.lookup (backupPath "s" "a")).isSome = true
    ∧ exStMeta.source.lookup "/s/a" = some (File.mk [1, 2] 10)
    ∧ exStMeta.db.get_file_metadata "/s/a" = (some 10, some 2)
    ∧ should_backup_file exStMeta "/s/a" (backupPath "s" "a") (List.length [1, 2]) = true
    ∧ (backup_file true 7 List.length exStMeta "/s/a" "s" "a").hashes = 1 := by
  refine ⟨by decide, by decide, by decide, by decide, by decide⟩

/-- C1 (amended): for a file whose backup path exists, the change decision
never consults the stored mod_time or file_size — it is false exactly when
the stored hash equals the content hash — and backup_file computes the
content hash unconditionally (exactly once) whenever the source file is
readable, before the decision is evaluated. -/
theorem C1_decision_is_hash_only (s : SysState) (fp sn rel : String)
    (file_hash : Nat) (copy_ok : Bool) (now : Nat) (hashFn : List Nat → Nat)
    (f : File)
    (hb : (s.backup.lookup (backupPath sn rel)).isSome = true)
    (hsrc : s.source.lookup fp = some f) :
    (should_backup_file s fp (backupPath sn rel) file_hash = false
        ↔ s.db.get_file_hash fp = some file_hash)
    ∧ (backup_file copy_ok now hashFn s fp sn rel).hashes = s.hashes + 1 := by
  constructor
  · unfold should_backup_file
    have hne : ¬ (s.backup.lookup (backupPath sn rel) = none) := by
      intro hnone
      rw [hnone] at hb
      simp at hb
    rw [if_neg hne]
    by_cases hg : s.db.get_file_hash fp = some file_hash
    · simp [hg]
    · simp [hg]
  · unfold backup_file
    rw [show calculate_file_hash hashFn s.source fp = some (hashFn f.content) by
      simp [calculate_file_hash, hsrc]]
    dsimp only
    split
    · exact (perform_backup_preserves copy_ok now
        { s with hashes := s.hashes + 1 } fp (backupPath sn rel) (hashFn f.content)).2.2.1
    · rfl

/-- C1 witness: the amended theorem applied at exStHit (backup present,
stored hash 2 equal to the content hash of the two-byte file). -/
theorem C1_decision_is_hash_only_witness :
    (exStHit.backup.lookup (backupPath "s" "a")).isSome = true
    ∧ exStHit.source.lookup "/s/a" = some exFile
    ∧ ((should_backup_file exStHit "/s/a" (backupPath "s" "a") 2 = false
          ↔ exStHit.db.get_file_hash "/s/a" = some 2)
        ∧ (backup_file true 7 List.length exStHit "/s/a" "s" "a").hashes
            = exStHit.hashes + 1) :=
  ⟨by decide, by decide,
    C1_decision_is_hash_only exStHit "/s/a" "s" "a" 2 true 7 List.length exFile
      (by decide) (by decide)⟩

/-- C2: evaluation of the code at the failing input.  Starting from exSt0
(readable source /s/a, no backup file) with the copy step failing
(copy_ok = false, e.g. an unwritable backup directory), backup_file still
runs _update_db: afterwards the store reports hash 2 for /s/a with a full
row stamped at time 7, while no backup file exists and zero copies were
performed — _copy_file swallowed the exception, so the claimed abort of
step 3 never happens. -/
theorem C2_store_updated_despite_failed_copy :
    (backup_file false 7 List.length exSt0 "/s/a" "s" "a").db.get_file_hash "/s/a" = some 2
    ∧ (backup_file false 7 List.length exSt0 "/s/a" "s" "a").db.get_row "/s/a"
        = some (Row.mk "/s/a" 2 10 2 7)
    ∧ (backup_file false 7 List.length exSt0 "/s/a" "s" "a").backup.lookup
        (backupPath "s" "a") = none
    ∧ (backup_file false 7 List.length exSt0 "/s/a" "s" "a").copies = 0 := by
  refine ⟨by decide, by decide, by decide, by decide⟩

/-- C3: main.main never invokes the snapshot-to-durable operation.  Over any
worklist the snapshot counter is unchanged (backup_to_disk is called zero
times, not exactly once) and the durable snapshot file is never written. -/
theorem C3_main_run_never_snapshots (now : Nat) (hashFn : List Nat → Nat)
    (s : SysState) (wl : List WorkItem) :
    (main_run now hashFn s wl).snapshots = s.snapshots
    ∧ (main_run now hashFn s wl).durable = s.durable := by
  induction wl generalizing s with
  | nil => exact ⟨rfl, rfl⟩
  | cons w t ih =>
    have hp := process_file_preserves now hashFn s w
    have hi := ih (process_file now hashFn s w)
    exact ⟨hi.1.trans hp.2.2, hi.2.trans hp.2.1⟩

/-- C4: evaluation of the code at the failing input.  Starting from the
fresh system exSt0 and running the full pipeline twice over the unchanged
one-file worklist, the first run performs one copy, and the second run —
although the source tree is untouched (conjunct three) — performs another
copy (the counter reaches 2, not 1): every worker database starts empty
because nothing is ever persisted, so get_file_hash returns None and the
hash comparison forces a re-copy. -/
theorem C4_second_run_recopies_unchanged_tree :
    (main_run 7 List.length exSt0 [WorkItem.mk "/s/a" "s" "a"]).copies = 1
    ∧ (main_run 7 List.length exSt0 [WorkItem.mk "/s/a" "s" "a"]).source = exSt0.source
    ∧ (main_run 7 List.length
        (main_run 7 List.length exSt0 [WorkItem.mk "/s/a" "s" "a"])
        [WorkItem.mk "/s/a" "s" "a"]).copies = 2 := by
  refine ⟨by decide, by decide, by decide⟩

/-- C5: after a successful commit (the copy succeeded and the store update
succeeded, both guaranteed here by copy_ok = true and a readable source
file), the content hash of the file now at the backup path equals the hash
the store returns for the source path. -/
theorem C5_backup_hash_matches_stored_hash (now : Nat) (hashFn : List Nat → Nat)
    (s : SysState) (fp bp : String) (f : File)
    (hsrc : s.source.lookup fp = some f) :
    ((perform_backup true now s fp bp (hashFn f.content)).backup.lookup bp).map
        (fun g => hashFn g.content)
      = (perform_backup true now s fp bp (hashFn f.content)).db.get_file_hash fp := by
  rw [perform_backup_true_some now s fp bp f hsrc (hashFn f.content)]
  show ((s.backup.insert bp f).lookup bp).map (fun g => hashFn g.content)
    = (s.db.update_file_data fp (hashFn f.content)
        f.mod_time f.content.length now).get_file_hash fp
  rw [fs_lookup_insert_self]
  exact (get_file_hash_update_self s.db fp (hashFn f.content)
    f.mod_time f.content.length now).symm

/-- C5 witness: the theorem applied at the fresh system exSt0. -/
theorem C5_backup_hash_matches_stored_hash_witness :
    exSt0.source.lookup "/s/a" = some exFile
    ∧ ((perform_backup true 7 exSt0 "/s/a" "/b/a"
          (List.length exFile.content)).backup.lookup "/b/a").map
            (fun g => List.length g.content)
        = (perform_backup true 7 exSt0 "/s/a" "/b/a"
            (List.length exFile.content)).db.get_file_hash "/s/a" :=
  ⟨by decide,
    C5_backup_hash_matches_stored_hash 7 List.length exSt0 "/s/a" "/b/a" exFile (by decide)⟩

/-- C6: an upsert on a well-formed store keeps at most one row per path,
installs exactly the new record for the upserted path (with
last_backup stamped to the current time `now`), and leaves the record of
every other path q unchanged — a replace, never a second row or a merge.
The read operations construct no new store, and backup_to_disk/init copy
the row set verbatim, so every store operation preserves the invariant. -/
theorem C6_upsert_replaces_single_record (db : DatabaseManager) (p q : String)
    (h mt sz now : Nat) (hwf : db.wellFormed) (hq : q ≠ p) :
    (db.update_file_data p h mt sz now).wellFormed
    ∧ (db.update_file_data p h mt sz now).get_row p = some (Row.mk p h mt sz now)
    ∧ (db.update_file_data p h mt sz now).get_row q = db.get_row q := by
  refine ⟨wellFormed_update db p h mt sz now hwf, ?_,
    get_row_update_ne db p q h mt sz now hq⟩
  unfold DatabaseManager.get_row DatabaseManager.update_file_data
  rw [List.find?_append, row_filter_find_self]
  simp [List.find?]

/-- C6 witness: the theorem applied to a one-row store. -/
theorem C6_upsert_replaces_single_record_witness :
    (DatabaseManager.mk [Row.mk "/s/a" 1 2 3 4]).wellFormed
    ∧ "/s/b" ≠ "/s/a"
    ∧ (((DatabaseManager.mk [Row.mk "/s/a" 1 2 3 4]).update_file_data
          "/s/a" 9 8 7 6).wellFormed
        ∧ ((DatabaseManager.mk [Row.mk "/s/a" 1 2 3 4]).update_file_data
            "/s/a" 9 8 7 6).get_row "/s/a" = some (Row.mk "/s/a" 9 8 7 6)
        ∧ ((DatabaseManager.mk [Row.mk "/s/a" 1 2 3 4]).update_file_data
            "/s/a" 9 8 7 6).get_row "/s/b"
            = (DatabaseManager.mk [Row.mk "/s/a" 1 2 3 4]).get_row "/s/b") :=
  ⟨by unfold DatabaseManager.wellFormed; decide, by decide,
    C6_upsert_replaces_single_record (DatabaseManager.mk [Row.mk "/s/a" 1 2 3 4])
      "/s/a" "/s/b" 9 8 7 6 (by unfold DatabaseManager.wellFormed; decide) (by decide)⟩

/-- C7: when no file exists at the backup path the decision is true, and
even in a state whose stored record agrees with the source file on hash,
mod_time and size (hypothesis hrec — nothing changed since the last
recorded backup), backup_file re-copies the file: the copy counter rises
and the backup file reappears with the source content. -/
theorem C7_missing_backup_forces_recopy (now t : Nat) (hashFn : List Nat → Nat)
    (s : SysState) (fp sn rel : String) (f : File)
    (hsrc : s.source.lookup fp = some f)
    (hmiss : s.backup.lookup (backupPath sn rel) = none)
    (hrec : s.db.get_row fp
      = some (Row.mk fp (hashFn f.content) f.mod_time f.content.length t)) :
    should_backup_file s fp (backupPath sn rel) (hashFn f.content) = true
    ∧ (backup_file true now hashFn s fp sn rel).copies = s.copies + 1
    ∧ (backup_file true now hashFn s fp sn rel).backup.lookup (backupPath sn rel)
        = some f := by
  have hdec : should_backup_file s fp (backupPath sn rel) (hashFn f.content) = true := by
    unfold should_backup_file
    rw [if_pos hmiss]
  have hdec1 : should_backup_file { s with hashes := s.hashes + 1 } fp
      (backupPath sn rel) (hashFn f.content) = true := by
    unfold should_backup_file
    rw [if_pos (show ({ s with hashes := s.hashes + 1 }
      : SysState).backup.lookup (backupPath sn rel) = none from hmiss)]
  have hbf : backup_file true now hashFn s fp sn rel
      = perform_backup true now { s with hashes := s.hashes + 1 } fp
          (backupPath sn rel) (hashFn f.content) := by
    unfold backup_file
    rw [show calculate_file_hash hashFn s.source fp = some (hashFn f.content) by
      simp [calculate_file_hash, hsrc]]
    dsimp only
    rw [if_pos hdec1]
  have hpb := perform_backup_true_some now { s with hashes := s.hashes + 1 } fp
    (backupPath sn rel) f hsrc (hashFn f.content)
  refine ⟨hdec, ?_, ?_⟩
  · rw [hbf, hpb]
  · rw [hbf, hpb]
    exact fs_lookup_insert_self s.backup (backupPath sn rel) f

/-- C7 witness: the theorem applied at exStMiss, whose stored record for
/s/a matches the source file completely while the backup file is absent. -/
theorem C7_missing_backup_forces_recopy_witness :
    exStMiss.source.lookup "/s/a" = some exFile
    ∧ exStMiss.backup.lookup (backupPath "s" "a") = none
    ∧ exStMiss.db.get_row "/s/a"
        = some (Row.mk "/s/a" (List.length exFile.content) exFile.mod_time
            exFile.content.length 0)
    ∧ (should_backup_file exStMiss "/s/a" (backupPath "s" "a")
          (List.length exFile.content) = true
        ∧ (backup_file true 7 List.length exStMiss "/s/a" "s" "a").copies
            = exStMiss.copies + 1
        ∧ (backup_file true 7 List.length exStMiss "/s/a" "s" "a").backup.lookup
            (backupPath "s" "a") = some exFile) :=
  ⟨by decide, by decide, by decide,
    C7_missing_backup_forces_recopy 7 0 List.length exStMiss "/s/a" "s" "a" exFile
      (by decide) (by decide) (by decide)⟩

/-- C8: counterexample to the claim as stated.  A generic exception
(message boom) raised while processing /s/a is caught and logged, but the
log entry is Unexpected error: boom — the offending path /s/a does not
occur in it, so the error is not logged with the offending path. -/
theorem C8_generic_error_logged_without_path_cex :
    (process_file_caught (fun _ => some (PyError.other "boom")) 7 List.length
        exSt0 (WorkItem.mk "/s/a" "s" "a")).log = ["Unexpected error: boom"]
    ∧ ¬ ("/s/a".toList <:+: ("Unexpected error: boom").toList) := by
  refine ⟨rfl, by decide⟩

/-- C8 (amended): every per-file error raised while detecting or committing
a file is caught inside backup_file and turned into one log entry
(NotFound and PermissionDenied entries contain the offending path; a
generic exception is logged with only its own message), and the remaining
worklist is processed exactly as before — no per-file error aborts the
batch. -/
theorem C8_per_file_errors_caught_batch_continues (errOf : WorkItem → Option PyError)
    (now : Nat) (hashFn : List Nat → Nat) (s : SysState) (w : WorkItem)
    (wl : List WorkItem) (e : PyError) (he : errOf w = some e) :
    process_file_caught errOf now hashFn s w
      = log_error { s with db := DatabaseManager.init s.durable }
          (handle_error w.file_path e)
    ∧ main_run_caught errOf now hashFn s (w :: wl)
      = main_run_caught errOf now hashFn (process_file_caught errOf now hashFn s w) wl
    ∧ w.file_path.toList <:+: (handle_error w.file_path PyError.notFound).toList
    ∧ w.file_path.toList <:+: (handle_error w.file_path PyError.permissionDenied).toList := by
  refine ⟨?_, rfl, ?_, ?_⟩
  · unfold process_file_caught backup_file_caught
    rw [he]
  · exact ⟨"Error: ".toList, " not found.".toList, by
      rw [← string_toList_append, ← string_toList_append]
      rfl⟩
  · exact ⟨"Error: Permission denied for ".toList, ".".toList, by
      rw [← string_toList_append, ← string_toList_append]
      rfl⟩

/-- C8 witness: the amended theorem applied to a one-item worklist whose
item raises a PermissionError. -/
theorem C8_per_file_errors_caught_batch_continues_witness :
    (fun _ : WorkItem => some PyError.permissionDenied) (WorkItem.mk "/s/a" "s" "a")
      = some PyError.permissionDenied
    ∧ (process_file_caught (fun _ => some PyError.permissionDenied) 7 List.length
          exSt0 (WorkItem.mk "/s/a" "s" "a")
        = log_error { exSt0 with db := DatabaseManager.init exSt0.durable }
            (handle_error (WorkItem.mk "/s/a" "s" "a").file_path
              PyError.permissionDenied)
      ∧ main_run_caught (fun _ => some PyError.permissionDenied) 7 List.length
          exSt0 [WorkItem.mk "/s/a" "s" "a"]
        = main_run_caught (fun _ => some PyError.permissionDenied) 7 List.length
            (process_file_caught (fun _ => some PyError.permissionDenied) 7
              List.length exSt0 (WorkItem.mk "/s/a" "s" "a")) []
      ∧ (WorkItem.mk "/s/a" "s" "a").file_path.toList <:+:
          (handle_error (WorkItem.mk "/s/a" "s" "a").file_path PyError.notFound).toList
      ∧ (WorkItem.mk "/s/a" "s" "a").file_path.toList <:+:
          (handle_error (WorkItem.mk "/s/a" "s" "a").file_path
            PyError.permissionDenied).toList) :=
  ⟨rfl,
    C8_per_file_errors_caught_batch_continues (fun _ => some PyError.permissionDenied)
      7 List.length exSt0 (WorkItem.mk "/s/a" "s" "a") [] PyError.permissionDenied rfl⟩

/-- C9: counterexample to the claim as stated.  The unknown algorithm name
md5x passes startup untouched (configuration performs no validation), and
the very first hashing call fails with AttributeError — while the same call
with the valid shipped name md5 succeeds on the same file.  So unknown
names are not rejected at startup; they fail at first use. -/
theorem C9_unknown_algorithm_passes_startup_fails_at_hash_cex :
    config_hash_algorithm_startup "md5x" = some "md5x"
    ∧ hashlib_algorithms.contains HASH_ALGORITHM = true
    ∧ calculate_file_hash_by_name (fun _ c => c.length)
        (FS.mk [("/s/a", exFile)]) "/s/a" "md5x" = HashOutcome.attributeError
    ∧ calculate_file_hash_by_name (fun _ c => c.length)
        (FS.mk [("/s/a", exFile)]) "/s/a" "md5" = HashOutcome.digest 2 := by
  refine ⟨rfl, by decide, by decide, by decide⟩

/-- C9 (amended): the hash algorithm name is never validated at
configuration/startup time; it is resolved against hashlib dynamically at
each hashing call, so any unknown name is accepted at startup and the first
hashing call made with it fails (AttributeError), regardless of the file or
of the digest functions. -/
theorem C9_unknown_algorithm_fails_at_first_hash (digestOf : String → List Nat → Nat)
    (fs : FS) (p name : String)
    (hname : hashlib_algorithms.contains name = false) :
    config_hash_algorithm_startup name = some name
    ∧ calculate_file_hash_by_name digestOf fs p name = HashOutcome.attributeError := by
  refine ⟨rfl, ?_⟩
  unfold calculate_file_hash_by_name
  rw [hname]
  rfl

/-- C9 witness: the amended theorem applied to the unknown name sha257. -/
theorem C9_unknown_algorithm_fails_at_first_hash_witness :
    hashlib_algorithms.contains "sha257" = false
    ∧ (config_hash_algorithm_startup "sha257" = some "sha257"
        ∧ calculate_file_hash_by_name (fun _ c => c.length)
            (FS.mk [("/s/a", exFile)]) "/s/a" "sha257" = HashOutcome.attributeError) :=
  ⟨by decide,
    C9_unknown_algorithm_fails_at_first_hash (fun _ c => c.length)
      (FS.mk [("/s/a", exFile)]) "/s/a" "sha257" (by decide)⟩

/-- C10: remove_deleted_backups deletes a backup entry of this source root
exactly when the corresponding source path (source root joined with the
entry's relative path) is missing: an entry whose source still exists is
returned unchanged, an entry outside this source root subtree (pout) is
untouched, the metadata store and the durable snapshot are untouched (the
rows of deleted backup files remain), and the whole result is independent
of the database contents (db2). -/
theorem C10_remove_deleted_backups_frame (s : SysState) (db2 : DatabaseManager)
    (d n rel pout : String)
    (hout : dropPre (BACKUP_DIR ++ n ++ "/") pout = none) :
    (remove_deleted_backups s d n).db = s.db
    ∧ (remove_deleted_backups s d n).durable = s.durable
    ∧ (remove_deleted_backups s d n).backup.lookup (backupPath n rel)
        = (if (s.source.lookup (d ++ "/" ++ rel)).isSome
            then s.backup.lookup (backupPath n rel) else none)
    ∧ (remove_deleted_backups s d n).backup.lookup pout = s.backup.lookup pout
    ∧ remove_deleted_backups { s with db := db2 } d n
        = { remove_deleted_backups s d n with db := db2 } := by
  refine ⟨rfl, rfl, ?_, ?_, rfl⟩
  · show List.lookup (backupPath n rel)
        (s.backup.files.filter (fun pf => keeps s d n pf.1))
      = if (s.source.lookup (d ++ "/" ++ rel)).isSome
          then s.backup.lookup (backupPath n rel) else none
    rw [lookup_filter_key (keeps s d n) (backupPath n rel) s.backup.files]
    have hk : keeps s d n (backupPath n rel)
        = (s.source.lookup (d ++ "/" ++ rel)).isSome := by
      unfold keeps
      rw [show dropPre (BACKUP_DIR ++ n ++ "/") (backupPath n rel) = some rel from
        dropPre_append (BACKUP_DIR ++ n ++ "/") rel]
    rw [hk]
    rfl
  · show List.lookup pout (s.backup.files.filter (fun pf => keeps s d n pf.1))
      = s.backup.lookup pout
    rw [lookup_filter_key (keeps s d n) pout s.backup.files]
    have hk : keeps s d n pout = true := by
      unfold keeps
      rw [hout]
    rw [hk]
    rfl

/-- C10 witness: the theorem applied at exStSweep with source root /src
(named src), relative path a (source present, so the entry must survive)
and the out-of-subtree path /elsewhere. -/
theorem C10_remove_deleted_backups_frame_witness :
    dropPre (BACKUP_DIR ++ "src" ++ "/") "/elsewhere" = none
    ∧ ((remove_deleted_backups exStSweep "/src" "src").db = exStSweep.db
      ∧ (remove_deleted_backups exStSweep "/src" "src").durable = exStSweep.durable
      ∧ (remove_deleted_backups exStSweep "/src" "src").backup.lookup
          (backupPath "src" "a")
          = (if (exStSweep.source.lookup ("/src" ++ "/" ++ "a")).isSome
              then exStSweep.backup.lookup (backupPath "src" "a") else none)
      ∧ (remove_deleted_backups exStSweep "/src" "src").backup.lookup "/elsewhere"
          = exStSweep.backup.lookup "/elsewhere"
      ∧ remove_deleted_backups { exStSweep with db := DatabaseManager.mk [] } "/src" "src"
          = { remove_deleted_backups exStSweep "/src" "src" with
              db := DatabaseManager.mk [] }) :=
  ⟨by decide,
    C10_remove_deleted_backups_frame exStSweep (DatabaseManager.mk [])
      "/src" "src" "a" "/elsewhere" (by decide)⟩
